import Mathlib

/-
Verification of the report-generator application (Python sources under
report_generator/) against its natural-language specification.  The Python
code is shallowly embedded: methods become pure Lean functions, mutable
object state (connection maps, data caches) is passed explicitly, and
library calls whose outcome depends on the outside world (database drivers,
file parsers, the Ollama CLI) are abstracted as oracle fields of explicit
world records.  Raised exceptions are modelled with Except, carrying the
message string the Python code builds.
-/

namespace ReportGen

/-! ## Python-style string helpers -/

/-- ASCII lowercasing, as Python str.lower on the identifiers used here. -/
def lowerStr (s : String) : String := String.mk (s.toList.map Char.toLower)

/-- Truthiness of an optional string: Python treats None and the empty
string as falsy. -/
def pyFalsyOpt : Option String → Bool
  | none => true
  | some s => s == ""

/-- Python `a or b` over an optional string argument and a fallback. -/
def pyOrStr (a : Option String) (b : String) : String :=
  match a with
  | none => b
  | some s => if s == "" then b else s

/-- Splitting a character list on a separator character. -/
def splitOnCharList (c : Char) : List Char → List (List Char)
  | [] => [[]]
  | x :: xs =>
    let r := splitOnCharList c xs
    if x = c then [] :: r
    else
      match r with
      | [] => [[x]]
      | y :: ys => (x :: y) :: ys

/-- The final component of a path, as pathlib Path.name. -/
def pathName (p : String) : String :=
  String.mk (((splitOnCharList '/' p.toList).getLast?).getD p.toList)

/-- Index of the last dot in a character list, if any. -/
def lastDotIdx (cs : List Char) : Option Nat :=
  (List.range cs.length).foldl
    (fun acc i => if cs.getD i ' ' = '.' then some i else acc) none

/-- pathlib Path.suffix: the extension from the last dot of the final
component; empty when the dot is leading or trailing. -/
def pySuffix (p : String) : String :=
  let name := pathName p
  let cs := name.toList
  match lastDotIdx cs with
  | none => ""
  | some i => if 0 < i ∧ i + 1 < cs.length then String.mk (cs.drop i) else ""

/-- pathlib Path.stem: the final component without its suffix. -/
def pyStem (p : String) : String :=
  let name := pathName p
  let cs := name.toList
  match lastDotIdx cs with
  | none => name
  | some i => if 0 < i ∧ i + 1 < cs.length then String.mk (cs.take i) else name

/-! ## ConnectionManager (core/data/connection_manager.py)

The connections dict is an association list from database-type name to the
stored entry; the stored client and pool handles are opaque, so an entry is
modelled by the config dict it was created from, itself reduced to its list
of keys (the code only tests key membership).  The outcome of each database
driver call is an oracle field of ConnWorld carrying the library error
message on failure. -/

/-- State of a ConnectionManager: the self.connections dict. -/
structure ConnState where
  connections : List (String × List String)
deriving DecidableEq, Repr

/-- Outcomes of the underlying database driver calls. -/
structure ConnWorld where
  mongoPing : Except String Unit
  mysqlConnect : Except String Unit
  pgConnect : Except String Unit

/-- Keys of self.supported_databases, in insertion order. -/
def supported_databases : List String := ["mongodb", "mysql", "postgresql"]

/-- get_supported_databases: list of the supported_databases keys. -/
def get_supported_databases : List String := supported_databases

/-- Required config keys for MongoDB. -/
def mongo_required : List String := ["uri", "database"]

/-- Required config keys for MySQL and PostgreSQL. -/
def sql_required : List String := ["host", "user", "password", "database"]

/-- _connect_mongodb: checks required keys, pings via the driver, and on
success stores the entry under the literal key mongodb; its except clause
rewraps any failure message. -/
def connect_mongodb (w : ConnWorld) (cfg : List String) (s : ConnState) :
    ConnState × Except String Bool :=
  if ¬ mongo_required.all (fun k => cfg.contains k) then
    (s, .error "MongoDB connection failed: Missing required MongoDB configuration")
  else
    match w.mongoPing with
    | .error m => (s, .error ("MongoDB connection failed: " ++ m))
    | .ok _ => (⟨("mongodb", cfg) :: s.connections⟩, .ok true)

/-- _connect_mysql: checks required keys, test-connects and builds the pool
via the drivers, and on success stores the entry under the key mysql. -/
def connect_mysql (w : ConnWorld) (cfg : List String) (s : ConnState) :
    ConnState × Except String Bool :=
  if ¬ sql_required.all (fun k => cfg.contains k) then
    (s, .error "MySQL connection failed: Missing required MySQL configuration")
  else
    match w.mysqlConnect with
    | .error m => (s, .error ("MySQL connection failed: " ++ m))
    | .ok _ => (⟨("mysql", cfg) :: s.connections⟩, .ok true)

/-- _connect_postgresql: checks required keys, test-connects and builds the
pool via the driver, and on success stores the entry under postgresql. -/
def connect_postgresql (w : ConnWorld) (cfg : List String) (s : ConnState) :
    ConnState × Except String Bool :=
  if ¬ sql_required.all (fun k => cfg.contains k) then
    (s, .error "PostgreSQL connection failed: Missing required PostgreSQL configuration")
  else
    match w.pgConnect with
    | .error m => (s, .error ("PostgreSQL connection failed: " ++ m))
    | .ok _ => (⟨("postgresql", cfg) :: s.connections⟩, .ok true)

/-- The except clause of create_connection: passes results through and
rewraps every exception message as Connection failed: message. -/
def wrap_connection_error (r : ConnState × Except String Bool) :
    ConnState × Except String Bool :=
  match r.2 with
  | .ok b => (r.1, .ok b)
  | .error m => (r.1, .error ("Connection failed: " ++ m))

/-- create_connection: raises DatabaseError on an unsupported type, returns
True unchanged when a connection for db_type already exists, otherwise
dispatches to the connect function for db_type; its outer except rewraps
every failure as Connection failed: message. -/
def create_connection (w : ConnWorld) (db_type : String) (cfg : List String)
    (s : ConnState) : ConnState × Except String Bool :=
  wrap_connection_error
    (if ¬ supported_databases.contains db_type then
      (s, Except.error ("Unsupported database type: " ++ db_type))
    else if (s.connections.lookup db_type).isSome then
      (s, .ok true)
    else if db_type = "mongodb" then connect_mongodb w cfg s
    else if db_type = "mysql" then connect_mysql w cfg s
    else connect_postgresql w cfg s)

/-- Invariant of reachable ConnectionManager states: every key present in
the connections dict is one of the supported database types (the connect
functions only ever store the three literal keys). -/
def ConnState.WF (s : ConnState) : Prop :=
  ∀ k : String, (s.connections.lookup k).isSome = true → k ∈ supported_databases

/-! ## DataSourceManager (core/data/source_manager.py)

The data_cache dict is an association list from cache key to the stored
entry.  A pandas DataFrame is abstracted to the attributes the manager
reads from it (columns and row count), and each file processor, which
delegates the parse wholesale to pandas, is an oracle field of FileWorld
returning either the parsed frame or the message of the DataProcessError
the processor raises. -/

/-- Abstraction of a pandas DataFrame: the attributes the manager reads. -/
structure DataFrame where
  columns : List String
  nrows : Nat
deriving DecidableEq, Repr

/-- One value of self.data_cache: the frame plus the metadata dict built in
process_file. -/
structure CacheEntry where
  data : DataFrame
  filename : String
  ftype : String
  rows : Nat
  columns : List String
  processed_at : String
deriving DecidableEq, Repr

/-- State of a DataSourceManager: the self.data_cache dict. -/
structure DSState where
  data_cache : List (String × CacheEntry)
deriving DecidableEq, Repr

/-- Filesystem and parser oracles: whether a path exists, and the outcome
of running the processor for a given path and file type. -/
structure FileWorld where
  pathExists : String → Bool
  parse : String → String → Except String DataFrame

/-- Keys of self.supported_file_types, in insertion order. -/
def supported_file_types : List String :=
  [".csv", ".xlsx", ".xls", ".json", ".txt", ".log"]

/-- The cache key built in process_file: file_path.stem joined with the
current timestamp. -/
def cache_key (path now : String) : String := pyStem path ++ "_" ++ now

/-- The cache entry built in process_file for a parsed frame; nowIso models
the datetime.now().isoformat() read. -/
def cache_entry (path ftype nowIso : String) (df : DataFrame) : CacheEntry :=
  { data := df
    filename := pathName path
    ftype := ftype
    rows := df.nrows
    columns := df.columns
    processed_at := nowIso }

/-- process_file: raises DataProcessError when the path does not exist,
takes the file type from the lowercased suffix when no override is given,
raises DataProcessError on a type outside supported_file_types, otherwise
runs the processor for that type and on success stores the frame in
data_cache; the outer except rewraps every failure as File processing
failed: message. -/
def process_file (w : FileWorld) (now nowIso : String) (s : DSState)
    (path : String) (ftypeArg : Option String) : DSState × Except String DataFrame :=
  let r :=
    if ¬ w.pathExists path then
      (s, Except.error ("File not found: " ++ path))
    else
      let ftype := ftypeArg.getD (lowerStr (pySuffix path))
      if ¬ supported_file_types.contains ftype then
        (s, .error ("Unsupported file type: " ++ ftype))
      else
        match w.parse path ftype with
        | .error m => (s, .error m)
        | .ok df =>
          (⟨(cache_key path now, cache_entry path ftype nowIso df) :: s.data_cache⟩, .ok df)
  match r.2 with
  | .ok df => (r.1, .ok df)
  | .error m => (r.1, .error ("File processing failed: " ++ m))

/-- Retrieval of a cached frame by key, as analyze_data and
create_visualization do with self.data_cache at a string argument. -/
def cached_data (s : DSState) (key : String) : Option DataFrame :=
  (s.data_cache.lookup key).map (fun e => e.data)

/-! ## ModelManager (core/models/manager.py)

The Ollama CLI and the configured OpenAI key are the environment of
get_model.  ModelManager defines no method named ensure_model_pulled (that
method lives on OllamaHandler in core/ollama_handler.py), so on the
unavailable-local-model path the attribute access self.ensure_model_pulled
raises AttributeError; the outer except logs and re-raises the same
exception unchanged.  The embedding makes that raise explicit. -/

/-- Python exceptions distinguished by get_model. -/
inductive PyExc where
  | valueError (msg : String)
  | attributeError (attr : String)
deriving DecidableEq, Repr

/-- str of the exception, as interpolated into the UI status string.  For
AttributeError this is the message naming the missing attribute. -/
def PyExc.msg : PyExc → String
  | .valueError m => m
  | .attributeError a => "ModelManager object has no attribute " ++ a

/-- Environment of ModelManager: whether ollama show succeeds for a model,
and config.OPENAI_API_KEY (empty when unset). -/
structure MMWorld where
  ollama_show_ok : String → Bool
  openai_api_key : String

/-- Constructed model instances. -/
inductive LLMModel where
  | ollama (model : String)
  | openai (model key : String)
deriving DecidableEq, Repr

/-- verify_model_availability: for local runs ollama show, for openai tests
the configured key, and returns False for any other provider. -/
def verify_model_availability (w : MMWorld) (provider model : String) : Bool :=
  if provider = "local" then w.ollama_show_ok model
  else if provider = "openai" then w.openai_api_key != ""
  else false

/-- get_model: for provider local returns an OllamaLLM when the model is
available and otherwise hits the missing ensure_model_pulled attribute; for
provider openai takes api_key or the configured key and raises ValueError
when both are absent; any other provider raises ValueError Unknown
provider.  The except clause re-raises unchanged. -/
def get_model (w : MMWorld) (provider model : String) (api_key : Option String) :
    Except PyExc LLMModel :=
  if provider = "local" then
    if verify_model_availability w "local" model then .ok (.ollama model)
    else .error (.attributeError "ensure_model_pulled")
  else if provider = "openai" then
    let key := pyOrStr api_key w.openai_api_key
    if key = "" then .error (.valueError "OpenAI API key required")
    else .ok (.openai model key)
  else .error (.valueError ("Unknown provider: " ++ provider))

/-! ## Gradio interface (interface/app.py)

The generate_report click handler is embedded over the widget values it
receives; the agent call and the document-library work inside the save
functions are effect oracles, while the model construction reuses the
get_model embedding above.  The handler returns the pair bound to the
output_file and status widgets. -/

/-- The Report Format radio choices (app.py line 92). -/
def format_type_choices : List String := ["PDF", "HTML", "DOCX"]

/-- The file types accepted by the upload widget (app.py line 63). -/
def ui_upload_file_types : List String := [".csv", ".json", ".xlsx", ".xls"]

/-- Widget values passed to the generate_report handler.  db_info is the
connection JSON; it only feeds the context dict handed to the agent call,
which is abstracted below. -/
structure GenInputs where
  provider : String
  model_name : Option String
  api_key : Option String
  source_type : String
  files : List String
  db_info : Option String
  query_text : String
  format_type : String
  include_viz : Bool

/-- Outcomes of the effectful calls the handler makes after model
construction: the awaited agent.generate_report call (constructor
included), and the document-library work inside the chosen save
function. -/
structure UIEffects where
  agent_result : Except String Unit
  save_result : Except String Unit

/-- save_pdf_report: runs the FPDF work and on success returns the fixed
pdf path for the timestamp with the success status; on an exception it
re-raises. -/
def save_pdf_report (eff : UIEffects) (ts : String) :
    Except String (Option String × String) :=
  match eff.save_result with
  | .error m => .error m
  | .ok _ => .ok (some ("reports/report_" ++ ts ++ ".pdf"), "Report generated successfully!")

/-- save_docx_report: as save_pdf_report but writing the docx path. -/
def save_docx_report (eff : UIEffects) (ts : String) :
    Except String (Option String × String) :=
  match eff.save_result with
  | .error m => .error m
  | .ok _ => .ok (some ("reports/report_" ++ ts ++ ".docx"), "Report generated successfully!")

/-- save_html_report: as save_pdf_report but writing the html path. -/
def save_html_report (eff : UIEffects) (ts : String) :
    Except String (Option String × String) :=
  match eff.save_result with
  | .error m => .error m
  | .ok _ => .ok (some ("reports/report_" ++ ts ++ ".html"), "Report generated successfully!")

/-- The body of the generate_report handler up to its except clause: the
three validation early returns, model construction via
ModelManager.get_model, the awaited agent call, then the dispatch on the
lowercased format selector to the save function; ts models the
datetime.now timestamp taken before the dispatch. -/
def generate_report_body (w : MMWorld) (eff : UIEffects) (ts : String)
    (inp : GenInputs) : Except String (Option String × String) :=
  if pyFalsyOpt inp.model_name then .ok (none, "Please select a model first")
  else if inp.query_text = "" then .ok (none, "Please enter a query")
  else if inp.files = [] ∧ (inp.source_type = "File Upload" ∨ inp.source_type = "Both") then
    .ok (none, "Please upload at least one file")
  else
    match get_model w inp.provider (inp.model_name.getD "") inp.api_key with
    | .error e => .error e.msg
    | .ok _ =>
      match eff.agent_result with
      | .error m => .error m
      | .ok _ =>
        if lowerStr inp.format_type = "pdf" then save_pdf_report eff ts
        else if lowerStr inp.format_type = "docx" then save_docx_report eff ts
        else save_html_report eff ts

/-- The generate_report handler: its except Exception clause turns every
exception raised by the body into the pair of no file and the status
string Error generating report: message; the handler itself is total, so
nothing propagates to the UI framework. -/
def generate_report (w : MMWorld) (eff : UIEffects) (ts : String)
    (inp : GenInputs) : Option String × String :=
  match generate_report_body w eff ts inp with
  | .ok r => r
  | .error m => (none, "Error generating report: " ++ m)

/-! ## Call contract between the UI and the agent

interface/app.py line 182 awaits agent.generate_report with the keyword
arguments query, context, output_format and include_viz, while the method
ReportGeneratorAgent.generate_report in core/agent.py line 60 declares the
parameters data_sources, query, output_format (default pdf) and
include_viz (default True).  Python keyword binding is embedded to relate
the two. -/

/-- A Python parameter: its name and whether it carries a default. -/
structure PyParam where
  name : String
  hasDefault : Bool
deriving DecidableEq, Repr

/-- The parameter list of ReportGeneratorAgent.generate_report, self
excluded. -/
def agent_generate_report_params : List PyParam :=
  [⟨"data_sources", false⟩, ⟨"query", false⟩, ⟨"output_format", true⟩,
   ⟨"include_viz", true⟩]

/-- The keyword names the UI handler passes in its agent.generate_report
call. -/
def ui_generate_report_call_kwargs : List String :=
  ["query", "context", "output_format", "include_viz"]

/-- Python keyword-argument binding for a call made with keyword arguments
only: TypeError when a keyword matches no parameter, or when a parameter
without default receives no argument. -/
def bind_kwargs (params : List PyParam) (kwargs : List String) :
    Except String Unit :=
  match kwargs.find? (fun k => ¬ (params.map (fun p => p.name)).contains k) with
  | some k => .error ("unexpected keyword argument " ++ k)
  | none =>
    match params.find? (fun p => ¬ p.hasDefault ∧ ¬ kwargs.contains p.name) with
    | some p => .error ("missing required argument " ++ p.name)
    | none => .ok ()

/-! ## Concrete fixtures used by witnesses and counterexamples -/

/-- A world where every database driver call succeeds. -/
def cw_ok : ConnWorld := ⟨.ok (), .ok (), .ok ()⟩

/-- A ConnectionManager state already holding a mysql entry. -/
def s_mysql : ConnState := ⟨[("mysql", ["host"])]⟩

/-- A concrete frame parsed from the fixture file. -/
def df_sales : DataFrame := ⟨["region", "amount"], 3⟩

/-- A filesystem in which only sales.csv exists and every parse yields
df_sales. -/
def fw_sales : FileWorld := ⟨fun p => p == "sales.csv", fun _ _ => .ok df_sales⟩

/-- A DataSourceManager state already holding one cache entry. -/
def s_pre : DSState :=
  ⟨[("old_key", cache_entry "old.csv" ".csv" "2024-12-31T00:00:00" ⟨["x"], 1⟩)]⟩

/-- A model environment with no local models and no configured key. -/
def mm_no_key : MMWorld := ⟨fun _ => false, ""⟩

/-- A model environment where every local model is available. -/
def mm_local_ok : MMWorld := ⟨fun _ => true, ""⟩

/-- Handler effects in which the agent call and the save succeed. -/
def eff_ok : UIEffects := ⟨.ok (), .ok ()⟩

/-- A fully valid set of widget values selecting the PDF format. -/
def inp_base : GenInputs :=
  ⟨"local", some "mistral", none, "File Upload", ["a.csv"], none, "q", "PDF", true⟩

/-- The same widget values with an unknown provider selected. -/
def inp_azure : GenInputs := { inp_base with provider := "azure" }

/-! ## Theorems -/

/-- C1: every exception raised during report generation is caught by the
generate_report handler, which returns the pair of no output file and the
status string Error generating report: message; the handler is a total
function into that pair type, so no exception propagates to the UI
framework. -/
theorem generate_report_catches_exceptions (w : MMWorld) (eff : UIEffects)
    (ts : String) (inp : GenInputs) (m : String)
    (h : generate_report_body w eff ts inp = .error m) :
    generate_report w eff ts inp = (none, "Error generating report: " ++ m) := by
  simp [generate_report, h]

/-- Witness for C1: with an unknown provider selected the body raises
ValueError Unknown provider: azure and the handler surfaces it as the
status string. -/
theorem generate_report_catches_exceptions_witness :
    generate_report mm_no_key eff_ok "t" inp_azure =
      (none, "Error generating report: Unknown provider: azure") :=
  generate_report_catches_exceptions mm_no_key eff_ok "t" inp_azure
    "Unknown provider: azure" (by rfl)

/-- C2: get_supported_databases returns exactly mongodb, mysql and
postgresql, and create_connection called with any other db_type raises
DatabaseError and leaves the connections dict unchanged. -/
theorem supported_databases_exact (w : ConnWorld) (db : String)
    (cfg : List String) (s : ConnState) :
    get_supported_databases = ["mongodb", "mysql", "postgresql"] ∧
    (db ∉ supported_databases →
      create_connection w db cfg s =
        (s, .error ("Connection failed: Unsupported database type: " ++ db))) := by
  refine ⟨rfl, fun hdb => ?_⟩
  simp [create_connection, wrap_connection_error, hdb]
  rw [← String.append_assoc]
  rfl

/-- Witness for C2: sqlite is rejected with the DatabaseError message and
the empty connections dict is untouched. -/
theorem supported_databases_exact_witness :
    get_supported_databases = ["mongodb", "mysql", "postgresql"] ∧
    create_connection cw_ok "sqlite" [] ⟨[]⟩ =
      (⟨[]⟩, .error "Connection failed: Unsupported database type: sqlite") :=
  ⟨(supported_databases_exact cw_ok "sqlite" [] ⟨[]⟩).1,
   (supported_databases_exact cw_ok "sqlite" [] ⟨[]⟩).2 (by decide)⟩

/-- C5: the claim describes get_model raising ValueError when a local model
is unavailable and cannot be pulled, but ModelManager has no
ensure_model_pulled method, so the unavailable-local-model path raises
AttributeError before any pull can be attempted; the theorem evaluates the
embedded get_model at such an input. -/
theorem get_model_missing_pull_method :
    get_model mm_no_key "local" "mistral" none =
      .error (.attributeError "ensure_model_pulled") := rfl

/-- C7: the UI and agent layers share no stable contract: binding the UI
call keywords against the agent generate_report parameters raises
TypeError on the unexpected keyword context, data_sources is never passed,
and the upload widget accepts a different extension set than process_file
supports (txt and log are processable but not uploadable). -/
theorem ui_agent_contract_mismatch :
    bind_kwargs agent_generate_report_params ui_generate_report_call_kwargs =
      .error "unexpected keyword argument context" ∧
    "context" ∉ agent_generate_report_params.map (fun p => p.name) ∧
    "data_sources" ∉ ui_generate_report_call_kwargs ∧
    ".txt" ∈ supported_file_types ∧ ".txt" ∉ ui_upload_file_types := by
  refine ⟨rfl, by decide, by decide, by decide, by decide⟩

/-- Auxiliary: the state left by wrap_connection_error is that of its
argument. -/
theorem wrap_connection_error_fst (r : ConnState × Except String Bool) :
    (wrap_connection_error r).1 = r.1 := by
  unfold wrap_connection_error
  split <;> rfl

/-- Auxiliary: _connect_mongodb only ever stores the key mongodb, so it
preserves the state invariant. -/
theorem connect_mongodb_WF (w : ConnWorld) (cfg : List String) (s : ConnState)
    (hwf : s.WF) : (connect_mongodb w cfg s).1.WF := by
  unfold connect_mongodb
  split
  · exact hwf
  · split
    · exact hwf
    · intro k hk
      simp only [List.lookup] at hk
      split at hk
      · next hbe =>
        have hkey : k = "mongodb" := by simpa using hbe
        subst hkey
        decide
      · exact hwf k hk

/-- Auxiliary: _connect_mysql only ever stores the key mysql. -/
theorem connect_mysql_WF (w : ConnWorld) (cfg : List String) (s : ConnState)
    (hwf : s.WF) : (connect_mysql w cfg s).1.WF := by
  unfold connect_mysql
  split
  · exact hwf
  · split
    · exact hwf
    · intro k hk
      simp only [List.lookup] at hk
      split at hk
      · next hbe =>
        have hkey : k = "mysql" := by simpa using hbe
        subst hkey
        decide
      · exact hwf k hk

/-- Auxiliary: _connect_postgresql only ever stores the key postgresql. -/
theorem connect_postgresql_WF (w : ConnWorld) (cfg : List String)
    (s : ConnState) (hwf : s.WF) : (connect_postgresql w cfg s).1.WF := by
  unfold connect_postgresql
  split
  · exact hwf
  · split
    · exact hwf
    · intro k hk
      simp only [List.lookup] at hk
      split at hk
      · next hbe =>
        have hkey : k = "postgresql" := by simpa using hbe
        subst hkey
        decide
      · exact hwf k hk

/-- Auxiliary: create_connection preserves the state invariant, so every
reachable ConnectionManager state is well formed. -/
theorem create_connection_preserves_WF (w : ConnWorld) (db : String)
    (cfg : List String) (s : ConnState) (hwf : s.WF) :
    (create_connection w db cfg s).1.WF := by
  unfold create_connection
  rw [wrap_connection_error_fst]
  split
  · exact hwf
  · split
    · exact hwf
    · split
      · exact connect_mongodb_WF w cfg s hwf
      · split
        · exact connect_mysql_WF w cfg s hwf
        · exact connect_postgresql_WF w cfg s hwf

/-- C9: create_connection is idempotent per database type: in any
well-formed state that already holds an entry for db_type, a second call
returns True and leaves the connections dict unchanged. -/
theorem create_connection_idempotent (w : ConnWorld) (db : String)
    (cfg : List String) (s : ConnState) (hwf : s.WF)
    (h : (s.connections.lookup db).isSome = true) :
    create_connection w db cfg s = (s, .ok true) := by
  have hdb : db ∈ supported_databases := hwf db h
  simp [create_connection, wrap_connection_error, hdb, h]

/-- Witness for C9: a state already holding a mysql entry is returned
unchanged with True. -/
theorem create_connection_idempotent_witness :
    create_connection cw_ok "mysql" [] s_mysql = (s_mysql, .ok true) :=
  create_connection_idempotent cw_ok "mysql" [] s_mysql
    (by
      intro k hk
      simp only [s_mysql, List.lookup] at hk
      split at hk
      · next hbe =>
        have hkey : k = "mysql" := by simpa using hbe
        subst hkey
        decide
      · simp at hk)
    (by rfl)

/-- C4: process_file dispatches on the lowercased extension: when the file
exists, its extension is one of the six supported types and the processor
parses it, the frame is returned; when the path does not exist or the
extension is outside the set, DataProcessError is raised instead. -/
theorem process_file_extension_dispatch (w : FileWorld) (now nowIso : String)
    (s : DSState) (path : String) (df : DataFrame) :
    supported_file_types = [".csv", ".xlsx", ".xls", ".json", ".txt", ".log"] ∧
    (w.pathExists path = true →
      lowerStr (pySuffix path) ∈ supported_file_types →
      w.parse path (lowerStr (pySuffix path)) = .ok df →
      (process_file w now nowIso s path none).2 = .ok df) ∧
    (w.pathExists path = false ∨ lowerStr (pySuffix path) ∉ supported_file_types →
      ∃ m, (process_file w now nowIso s path none).2 =
        .error ("File processing failed: " ++ m)) := by
  refine ⟨rfl, fun hex hmem hparse => ?_, fun hbad => ?_⟩
  · simp [process_file, hex, hmem, hparse]
  · cases hpe : w.pathExists path with
    | false =>
      exact ⟨"File not found: " ++ path, by simp [process_file, hpe]⟩
    | true =>
      rcases hbad with hnex | hns
      · rw [hpe] at hnex
        exact absurd hnex (by simp)
      · refine ⟨"Unsupported file type: " ++ lowerStr (pySuffix path), ?_⟩
        simp [process_file, hpe, hns]

/-- Witness for C4: sales.csv is parsed into the fixture frame, while a
pdf path raises DataProcessError. -/
theorem process_file_extension_dispatch_witness :
    (process_file fw_sales "t" "i" ⟨[]⟩ "sales.csv" none).2 = .ok df_sales ∧
    ∃ m, (process_file fw_sales "t" "i" ⟨[]⟩ "doc.pdf" none).2 =
      .error ("File processing failed: " ++ m) :=
  ⟨(process_file_extension_dispatch fw_sales "t" "i" ⟨[]⟩ "sales.csv" df_sales).2.1
      (by rfl) (by decide) (by rfl),
   (process_file_extension_dispatch fw_sales "t" "i" ⟨[]⟩ "doc.pdf" df_sales).2.2
      (Or.inl (by rfl))⟩

/-- Auxiliary: on every raised DataProcessError, process_file leaves the
manager state exactly as it was. -/
theorem process_file_error_state (w : FileWorld) (now nowIso : String)
    (s : DSState) (path : String) (ftypeArg : Option String) (m : String)
    (hm : (process_file w now nowIso s path ftypeArg).2 = .error m) :
    (process_file w now nowIso s path ftypeArg).1 = s := by
  cases hpe : w.pathExists path with
  | false => simp [process_file, hpe]
  | true =>
    by_cases hct : (ftypeArg.getD (lowerStr (pySuffix path))) ∈ supported_file_types
    · cases hp : w.parse path (ftypeArg.getD (lowerStr (pySuffix path))) with
      | error e => simp [process_file, hpe, hct, hp]
      | ok df => simp [process_file, hpe, hct, hp] at hm
    · simp [process_file, hpe, hct]

/-- Auxiliary: on success, process_file adds exactly the one new cache
entry for the parsed frame, in front of the previous entries. -/
theorem process_file_ok_cache (w : FileWorld) (now nowIso : String)
    (s : DSState) (path : String) (ftypeArg : Option String) (df : DataFrame)
    (hdf : (process_file w now nowIso s path ftypeArg).2 = .ok df) :
    (process_file w now nowIso s path ftypeArg).1.data_cache =
      (cache_key path now,
        cache_entry path (ftypeArg.getD (lowerStr (pySuffix path))) nowIso df) ::
        s.data_cache := by
  cases hpe : w.pathExists path with
  | false => simp [process_file, hpe] at hdf
  | true =>
    by_cases hct : (ftypeArg.getD (lowerStr (pySuffix path))) ∈ supported_file_types
    · cases hp : w.parse path (ftypeArg.getD (lowerStr (pySuffix path))) with
      | error e => simp [process_file, hpe, hct, hp] at hdf
      | ok df₀ =>
        simp [process_file, hpe, hct, hp] at hdf ⊢
        rw [hdf]
    · simp [process_file, hpe, hct] at hdf

/-- C10: process_file is atomic with respect to the data cache: on every
DataProcessError the cache is exactly as before the call, and on success
exactly the one new entry holding the parsed frame is added in front. -/
theorem process_file_cache_atomic (w : FileWorld) (now nowIso : String)
    (s : DSState) (path : String) (ftypeArg : Option String) :
    (∀ m, (process_file w now nowIso s path ftypeArg).2 = .error m →
      (process_file w now nowIso s path ftypeArg).1 = s) ∧
    (∀ df, (process_file w now nowIso s path ftypeArg).2 = .ok df →
      (process_file w now nowIso s path ftypeArg).1.data_cache =
        (cache_key path now,
          cache_entry path (ftypeArg.getD (lowerStr (pySuffix path))) nowIso df) ::
          s.data_cache) :=
  ⟨fun m hm => process_file_error_state w now nowIso s path ftypeArg m hm,
   fun df hdf => process_file_ok_cache w now nowIso s path ftypeArg df hdf⟩

/-- Witness for C10: a failing call leaves the empty cache empty, and a
successful call adds exactly the new entry. -/
theorem process_file_cache_atomic_witness :
    (process_file fw_sales "t" "i" ⟨[]⟩ "missing.csv" none).1 = ⟨[]⟩ ∧
    (process_file fw_sales "t" "i" ⟨[]⟩ "sales.csv" none).1.data_cache =
      (cache_key "sales.csv" "t",
        cache_entry "sales.csv" ((none : Option String).getD (lowerStr (pySuffix "sales.csv")))
          "i" df_sales) :: DSState.data_cache ⟨[]⟩ :=
  ⟨(process_file_cache_atomic fw_sales "t" "i" ⟨[]⟩ "missing.csv" none).1
      "File processing failed: File not found: missing.csv" (by rfl),
   (process_file_cache_atomic fw_sales "t" "i" ⟨[]⟩ "sales.csv" none).2
      df_sales (by rfl)⟩

/-- C6 counterexample: the claim that no application state holds a stored
copy of a processed result fails at a concrete input: after process_file
parses sales.csv, the data cache holds the parsed frame, retrievable by
its cache key as analyze_data does. -/
theorem process_file_stores_copy_counterexample :
    cached_data
        (process_file fw_sales "20250101_120000" "2025-01-01T12:00:00" ⟨[]⟩
          "sales.csv" none).1 "sales_20250101_120000" = some df_sales ∧
    (process_file fw_sales "20250101_120000" "2025-01-01T12:00:00" ⟨[]⟩
        "sales.csv" none).2 = .ok df_sales := by
  constructor <;> rfl

/-- C6 amended: the application does keep a stored copy of processed
results: every successful process_file call stores a copy of the parsed
frame in data_cache, retrievable afterwards by its cache key as
analyze_data and create_visualization retrieve it; processing is not
effect-free on application state. -/
theorem process_file_caches_result (w : FileWorld)
    (now nowIso : String) (s : DSState) (path : String) (df : DataFrame)
    (h : (process_file w now nowIso s path none).2 = .ok df) :
    cached_data (process_file w now nowIso s path none).1 (cache_key path now) =
      some df := by
  have hcache := process_file_ok_cache w now nowIso s path none df h
  simp [cached_data, hcache, List.lookup, cache_entry]

/-- Witness for C6: a successful parse over a non-empty cache stores the
new frame, retrievable under its key. -/
theorem process_file_caches_result_witness :
    cached_data (process_file fw_sales "t2" "i2" s_pre "sales.csv" none).1
      (cache_key "sales.csv" "t2") = some df_sales :=
  process_file_caches_result fw_sales "t2" "i2" s_pre "sales.csv"
    df_sales (by rfl)

/-- Auxiliary: whenever the handler body returns an output file, its path
is the one built by the save function chosen from the lowercased format
selector. -/
theorem generate_report_body_ok_path (w : MMWorld) (eff : UIEffects)
    (ts : String) (inp : GenInputs) (p0 s0 : String)
    (hb : generate_report_body w eff ts inp = .ok (some p0, s0)) :
    p0 = (if lowerStr inp.format_type = "pdf" then "reports/report_" ++ ts ++ ".pdf"
      else if lowerStr inp.format_type = "docx" then "reports/report_" ++ ts ++ ".docx"
      else "reports/report_" ++ ts ++ ".html") := by
  cases hf : pyFalsyOpt inp.model_name with
  | true => simp [generate_report_body, hf] at hb
  | false =>
    by_cases hq : inp.query_text = ""
    · simp [generate_report_body, hf, hq] at hb
    · by_cases hfl : inp.files = [] ∧
        (inp.source_type = "File Upload" ∨ inp.source_type = "Both")
      · simp [generate_report_body, hf, hq, hfl] at hb
      · cases hgm : get_model w inp.provider (inp.model_name.getD "") inp.api_key with
        | error e => simp [generate_report_body, hf, hq, hfl, hgm] at hb
        | ok mdl =>
          cases har : eff.agent_result with
          | error m => simp [generate_report_body, hf, hq, hfl, hgm, har] at hb
          | ok u =>
            cases hsv : eff.save_result with
            | error m =>
              by_cases hpdf : lowerStr inp.format_type = "pdf"
              · simp [generate_report_body, save_pdf_report, hf, hq, hfl, hgm,
                  har, hpdf, hsv] at hb
              · by_cases hdocx : lowerStr inp.format_type = "docx"
                · simp [generate_report_body, save_docx_report, hf, hq, hfl,
                    hgm, har, hpdf, hdocx, hsv] at hb
                · simp [generate_report_body, save_html_report, hf, hq, hfl,
                    hgm, har, hpdf, hdocx, hsv] at hb
            | ok u2 =>
              by_cases hpdf : lowerStr inp.format_type = "pdf"
              · rw [if_pos hpdf]
                simp [generate_report_body, save_pdf_report, hf, hq, hfl, hgm,
                  har, hpdf, hsv] at hb
                exact hb.1.symm
              · by_cases hdocx : lowerStr inp.format_type = "docx"
                · rw [if_neg hpdf, if_pos hdocx]
                  simp [generate_report_body, save_docx_report, hf, hq, hfl,
                    hgm, har, hpdf, hdocx, hsv] at hb
                  exact hb.1.symm
                · rw [if_neg hpdf, if_neg hdocx]
                  simp [generate_report_body, save_html_report, hf, hq, hfl,
                    hgm, har, hpdf, hdocx, hsv] at hb
                  exact hb.1.symm

/-- C3: the Report Format selector offers exactly PDF, HTML and DOCX, and
whenever a report-generation request succeeds with an output file, the
file path is the pdf one when the selector lowercases to pdf, the docx one
when it lowercases to docx, and the html one otherwise. -/
theorem generate_report_format_dispatch (w : MMWorld) (eff : UIEffects)
    (ts : String) (inp : GenInputs) (path st : String)
    (h : generate_report w eff ts inp = (some path, st)) :
    format_type_choices = ["PDF", "HTML", "DOCX"] ∧
    path = (if lowerStr inp.format_type = "pdf" then "reports/report_" ++ ts ++ ".pdf"
      else if lowerStr inp.format_type = "docx" then "reports/report_" ++ ts ++ ".docx"
      else "reports/report_" ++ ts ++ ".html") := by
  refine ⟨rfl, ?_⟩
  unfold generate_report at h
  cases hb : generate_report_body w eff ts inp with
  | error m =>
    rw [hb] at h
    simp at h
  | ok r =>
    rw [hb] at h
    obtain ⟨p0, s0⟩ := r
    simp at h
    obtain ⟨hp, hs⟩ := h
    subst hp
    subst hs
    exact generate_report_body_ok_path _ _ _ _ _ _ hb

/-- Witness for C3: a fully valid request with the PDF selector succeeds
and yields the pdf path for its timestamp. -/
theorem generate_report_format_dispatch_witness :
    format_type_choices = ["PDF", "HTML", "DOCX"] ∧
    "reports/report_20250101.pdf" =
      (if lowerStr inp_base.format_type = "pdf" then "reports/report_" ++ "20250101" ++ ".pdf"
       else if lowerStr inp_base.format_type = "docx" then "reports/report_" ++ "20250101" ++ ".docx"
       else "reports/report_" ++ "20250101" ++ ".html") :=
  generate_report_format_dispatch mm_local_ok eff_ok "20250101" inp_base
    "reports/report_20250101.pdf" "Report generated successfully!" (by rfl)

end ReportGen
